import Mathlib

set_option maxRecDepth 20000

/- ===================================================================
   Shallow embedding of the hs1x0 TP-Link smart-plug client
   (src/lib.rs and src/types.rs).

   Bytes are modelled as `Nat`; every byte value the code manipulates
   stays below 256 because XOR of two bytes is again a byte.  The Rust
   cast `data.len() as u32` is modelled by an explicit `% 2 ^ 32`.
   A Rust panic (slice index out of bounds, `.unwrap()` on an `Err`)
   aborts the computation, so it is modelled as a dedicated outcome
   constructor rather than a value.
   =================================================================== -/

/-- Embedding of `size_to_bytes` (src/lib.rs:23-30): splits a `u32`
into its four big-endian bytes.  The Rust `(size >> k) & 0xff` is the
Nat `(size >>> k) % 256`; the function is only applied to values that
were already reduced `% 2 ^ 32` by the `as u32` cast at the call site. -/
def size_to_bytes (size : Nat) : List Nat :=
  [(size >>> 24) % 256, (size >>> 16) % 256, (size >>> 8) % 256, size % 256]

/-- Embedding of `size_from_bytes` (src/lib.rs:32-37): reassembles the
big-endian `u32` from the first four list entries with shifts and
bitwise OR, exactly as the source does.  The source indexes
`size[0] .. size[3]`; it is only ever called on the 4-byte slice
`&data[0..4]`, so the `getD` default is never taken at any call site
of the embedding. -/
def size_from_bytes (size : List Nat) : Nat :=
  ((size.getD 0 0) <<< 24) ||| ((size.getD 1 0) <<< 16) |||
    ((size.getD 2 0) <<< 8) ||| (size.getD 3 0)

/-- Embedding of the cipher loop of `encrypt_payload` (src/lib.rs:46-50):
each plaintext byte is XORed with the running key and the resulting
ciphertext byte becomes the next key. -/
def encryptBytes (key : Nat) : List Nat → List Nat
  | [] => []
  | b :: bs =>
    let tmp := b ^^^ key
    tmp :: encryptBytes tmp bs

/-- Embedding of the cipher loop of `decrypt_payload` (src/lib.rs:61-65):
each ciphertext byte is XORed with the running key and the ciphertext
byte just read (not the derived plaintext) becomes the next key. -/
def decryptBytes (key : Nat) : List Nat → List Nat
  | [] => []
  | c :: cs => (c ^^^ key) :: decryptBytes c cs

/-- Embedding of `encrypt_payload` (src/lib.rs:39-53): the 4-byte
big-endian prefix of `data.len() as u32` (hence the `% 2 ^ 32`),
followed by the ciphered bytes with seed key 171. -/
def encrypt_payload (data : List Nat) : List Nat :=
  size_to_bytes (data.length % 2 ^ 32) ++ encryptBytes 171 data

/-- Result of running `decrypt_payload`: either the decoded byte
vector, or the out-of-bounds panic that Rust raises when an index into
`data` exceeds the slice (there is no error channel in the source:
its return type is a plain `Vec<u8>`). -/
inductive DecodeResult where
  | ok : List Nat → DecodeResult
  | outOfBounds : DecodeResult
deriving DecidableEq

/-- Embedding of `decrypt_payload` (src/lib.rs:55-68).  The source
first slices `&data[0..4]` (a panic when fewer than 4 bytes are
supplied), reads the declared payload size, then indexes
`data[4 .. payload_size + 4]` (a panic as soon as the first index
reaches past the end, which happens exactly when
`data.len() < payload_size + 4`); otherwise it deciphers the payload
slice with seed key 171. -/
def decrypt_payload (data : List Nat) : DecodeResult :=
  if data.length < 4 then .outOfBounds
  else if data.length < size_from_bytes (data.take 4) + 4 then .outOfBounds
  else .ok (decryptBytes 171 ((data.drop 4).take (size_from_bytes (data.take 4))))

/-- Value of a 4-byte list read as a big-endian number.  This follows
the spec's words ("the first 4 bytes equal `len(x)` in big-endian")
rather than the source, so that the framing claim compares the
source's prefix against an independently stated meaning. -/
def bigEndianValue (b : List Nat) : Nat :=
  (b.getD 0 0) * 2 ^ 24 + (b.getD 1 0) * 2 ^ 16 + (b.getD 2 0) * 2 ^ 8 + b.getD 3 0

/- ===================================================================
   JSON documents and the typed response schema (src/types.rs).

   JSON numbers are modelled as rationals: the schema's `f64` leaves
   are then exact values rather than floats (only presence/absence of
   leaves is at stake in the claims), and an `i64` leaf requires the
   number to be an integer, mirroring serde_json's distinction between
   integer and fractional number tokens.
   =================================================================== -/

/-- JSON values, as produced by serde_json. -/
inductive Json where
  | null : Json
  | bool : Bool → Json
  | num : Rat → Json
  | str : String → Json
  | arr : List Json → Json
  | obj : List (String × Json) → Json

/-- Looks a key up in a JSON object (serde ignores unknown keys since
no struct carries a deny-unknown-fields attribute, and reads each
declared field by name). -/
def jsonField (kvs : List (String × Json)) (k : String) : Option Json :=
  match kvs.find? (fun p => p.fst == k) with
  | some p => some p.snd
  | none => none

/-- Serde semantics of an `Option<f64>` struct field: a missing key or
an explicit `null` deserializes to `None`; a number deserializes to
`Some`; anything else is a type error. -/
def optNumField (kvs : List (String × Json)) (k : String) : Except String (Option Rat) :=
  match jsonField kvs k with
  | none => .ok none
  | some .null => .ok none
  | some (.num v) => .ok (some v)
  | some _ => .error ("invalid type for field " ++ k)

/-- Serde semantics of a required `i64` struct field: the key must be
present and hold an integer number; a missing key is the
"missing field" deserialization error. -/
def intField (kvs : List (String × Json)) (k : String) : Except String Int :=
  match jsonField kvs k with
  | none => .error ("missing field " ++ k)
  | some (.num v) => if v.den = 1 then .ok v.num else .error ("invalid type for field " ++ k)
  | some _ => .error ("invalid type for field " ++ k)

/-- Serde semantics of a required `f64` struct field. -/
def numField (kvs : List (String × Json)) (k : String) : Except String Rat :=
  match jsonField kvs k with
  | some (.num v) => .ok v
  | some _ => .error ("invalid type for field " ++ k)
  | none => .error ("missing field " ++ k)

/-- Serde semantics of a required `String` struct field. -/
def strField (kvs : List (String × Json)) (k : String) : Except String String :=
  match jsonField kvs k with
  | some (.str v) => .ok v
  | some _ => .error ("invalid type for field " ++ k)
  | none => .error ("missing field " ++ k)

/-- Serde semantics of an `Option<T>` struct field holding a nested
structure: missing or `null` is `None`, anything else is parsed by the
nested deserializer. -/
def optStructField {α : Type} (kvs : List (String × Json)) (k : String)
    (f : Json → Except String α) : Except String (Option α) :=
  match jsonField kvs k with
  | none => .ok none
  | some .null => .ok none
  | some j => (f j).map some

/-- Embedding of `EmeterGetRealtimeResponse` (src/types.rs:43-54):
eight optional measurement leaves and a required `err_code: i64`. -/
structure EmeterGetRealtimeResponse where
  current : Option Rat
  current_ma : Option Rat
  voltage : Option Rat
  voltage_mv : Option Rat
  power : Option Rat
  power_mw : Option Rat
  total : Option Rat
  total_wh : Option Rat
  err_code : Int
deriving DecidableEq

/-- Serde-derived deserializer for `EmeterGetRealtimeResponse`:
structs deserialize from JSON maps only. -/
def EmeterGetRealtimeResponse.fromJson : Json → Except String EmeterGetRealtimeResponse
  | .obj kvs => do
    let current ← optNumField kvs "current"
    let current_ma ← optNumField kvs "current_ma"
    let voltage ← optNumField kvs "voltage"
    let voltage_mv ← optNumField kvs "voltage_mv"
    let power ← optNumField kvs "power"
    let power_mw ← optNumField kvs "power_mw"
    let total ← optNumField kvs "total"
    let total_wh ← optNumField kvs "total_wh"
    let err_code ← intField kvs "err_code"
    .ok ⟨current, current_ma, voltage, voltage_mv, power, power_mw, total, total_wh, err_code⟩
  | _ => .error "invalid type: expected a map"

/-- Embedding of `EmeterGetVGainIGainResponse` (src/types.rs:74-79). -/
structure EmeterGetVGainIGainResponse where
  vgain : Int
  igain : Int
  err_code : Int
deriving DecidableEq

/-- Serde-derived deserializer for `EmeterGetVGainIGainResponse`. -/
def EmeterGetVGainIGainResponse.fromJson : Json → Except String EmeterGetVGainIGainResponse
  | .obj kvs => do
    let vgain ← intField kvs "vgain"
    let igain ← intField kvs "igain"
    let err_code ← intField kvs "err_code"
    .ok ⟨vgain, igain, err_code⟩
  | _ => .error "invalid type: expected a map"

/-- Embedding of `EmeterGetDaystatItem` (src/types.rs:81-87). -/
structure EmeterGetDaystatItem where
  year : Int
  month : Int
  day : Int
  energy : Rat
deriving DecidableEq

/-- Serde-derived deserializer for `EmeterGetDaystatItem`. -/
def EmeterGetDaystatItem.fromJson : Json → Except String EmeterGetDaystatItem
  | .obj kvs => do
    let year ← intField kvs "year"
    let month ← intField kvs "month"
    let day ← intField kvs "day"
    let energy ← numField kvs "energy"
    .ok ⟨year, month, day, energy⟩
  | _ => .error "invalid type: expected a map"

/-- Deserializes each element of a JSON array (serde `Vec<T>`). -/
def jsonListOf {α : Type} (f : Json → Except String α) : List Json → Except String (List α)
  | [] => .ok []
  | j :: js => do
    let a ← f j
    let as ← jsonListOf f js
    .ok (a :: as)

/-- Embedding of `EmeterGetDaystatResponse` (src/types.rs:89-93):
`day_list` is a required `Vec`. -/
structure EmeterGetDaystatResponse where
  day_list : List EmeterGetDaystatItem
  err_code : Int
deriving DecidableEq

/-- Serde-derived deserializer for `EmeterGetDaystatResponse`. -/
def EmeterGetDaystatResponse.fromJson : Json → Except String EmeterGetDaystatResponse
  | .obj kvs => do
    let day_list ←
      match jsonField kvs "day_list" with
      | some (.arr js) => jsonListOf EmeterGetDaystatItem.fromJson js
      | some _ => .error "invalid type for field day_list"
      | none => .error "missing field day_list"
    let err_code ← intField kvs "err_code"
    .ok ⟨day_list, err_code⟩
  | _ => .error "invalid type: expected a map"

/-- Embedding of `EmeterResponse` (src/types.rs:95-100): all three
action blocks are optional. -/
structure EmeterResponse where
  get_realtime : Option EmeterGetRealtimeResponse
  get_vgain_igain : Option EmeterGetVGainIGainResponse
  get_daystat : Option EmeterGetDaystatResponse
deriving DecidableEq

/-- Serde-derived deserializer for `EmeterResponse`. -/
def EmeterResponse.fromJson : Json → Except String EmeterResponse
  | .obj kvs => do
    let get_realtime ← optStructField kvs "get_realtime" EmeterGetRealtimeResponse.fromJson
    let get_vgain_igain ← optStructField kvs "get_vgain_igain" EmeterGetVGainIGainResponse.fromJson
    let get_daystat ← optStructField kvs "get_daystat" EmeterGetDaystatResponse.fromJson
    .ok ⟨get_realtime, get_vgain_igain, get_daystat⟩
  | _ => .error "invalid type: expected a map"

/-- Embedding of `SystemGetSysInfoResponse` (src/types.rs:7-36): every
field is required (none is an `Option`); the serde renames map the
wire keys "type", "deviceId", "hwId", "fwId", "oemId" onto the Rust
field names. -/
structure SystemGetSysInfoResponse where
  errcode : Int
  sw_ver : String
  hw_ver : String
  hw_type : String
  model : String
  mac : String
  device_id : String
  hw_id : String
  fw_id : String
  oem_id : String
  «alias» : String
  dev_name : String
  icon_hash : String
  relay_state : Int
  on_time : Int
  active_mode : String
  feature : String
  updating : Int
  rssi : Int
  led_off : Int
  latitude : Rat
  longitude : Rat
deriving DecidableEq

/-- Serde-derived deserializer for `SystemGetSysInfoResponse`, looking
fields up under their wire names. -/
def SystemGetSysInfoResponse.fromJson : Json → Except String SystemGetSysInfoResponse
  | .obj kvs => do
    let errcode ← intField kvs "errcode"
    let sw_ver ← strField kvs "sw_ver"
    let hw_ver ← strField kvs "hw_ver"
    let hw_type ← strField kvs "type"
    let model ← strField kvs "model"
    let mac ← strField kvs "mac"
    let device_id ← strField kvs "deviceId"
    let hw_id ← strField kvs "hwId"
    let fw_id ← strField kvs "fwId"
    let oem_id ← strField kvs "oemId"
    let «alias» ← strField kvs "alias"
    let dev_name ← strField kvs "dev_name"
    let icon_hash ← strField kvs "icon_hash"
    let relay_state ← intField kvs "relay_state"
    let on_time ← intField kvs "on_time"
    let active_mode ← strField kvs "active_mode"
    let feature ← strField kvs "feature"
    let updating ← intField kvs "updating"
    let rssi ← intField kvs "rssi"
    let led_off ← intField kvs "led_off"
    let latitude ← numField kvs "latitude"
    let longitude ← numField kvs "longitude"
    .ok ⟨errcode, sw_ver, hw_ver, hw_type, model, mac, device_id, hw_id, fw_id, oem_id,
      «alias», dev_name, icon_hash, relay_state, on_time, active_mode, feature, updating,
      rssi, led_off, latitude, longitude⟩
  | _ => .error "invalid type: expected a map"

/-- Embedding of `SystemResponse` (src/types.rs:38-41): `get_sysinfo`
is a required field. -/
structure SystemResponse where
  get_sysinfo : SystemGetSysInfoResponse
deriving DecidableEq

/-- Serde-derived deserializer for `SystemResponse`. -/
def SystemResponse.fromJson : Json → Except String SystemResponse
  | .obj kvs => do
    let get_sysinfo ←
      match jsonField kvs "get_sysinfo" with
      | some j => SystemGetSysInfoResponse.fromJson j
      | none => .error "missing field get_sysinfo"
    .ok ⟨get_sysinfo⟩
  | _ => .error "invalid type: expected a map"

/-- Embedding of `PlugResponse` (src/types.rs:102-106): both module
blocks are optional. -/
structure PlugResponse where
  system : Option SystemResponse
  emeter : Option EmeterResponse
deriving DecidableEq

/-- Serde-derived deserializer for `PlugResponse`, the typed response
schema every command of the facade deserializes into. -/
def PlugResponse.fromJson : Json → Except String PlugResponse
  | .obj kvs => do
    let system ← optStructField kvs "system" SystemResponse.fromJson
    let emeter ← optStructField kvs "emeter" EmeterResponse.fromJson
    .ok ⟨system, emeter⟩
  | _ => .error "invalid type: expected a map"

/- ===================================================================
   Transport (src/lib.rs:74-107) and command facade.

   The network and the two external library codecs (UTF-8 validation
   and serde_json parsing) are the transport's collaborators; one
   exchange consults each of them once, so a single record of step
   outcomes determines the whole call.
   =================================================================== -/

/-- Embedding of `PlugError` (src/types.rs:108-119). -/
structure PlugError where
  details : String
deriving DecidableEq

/-- Embedding of `PlugError::new`. -/
def PlugError.new (msg : String) : PlugError := ⟨msg⟩

/-- Outcomes of the collaborating steps of one `send_command` call:
the `TcpStream::connect` result, the `set_read_timeout` result, the
`stream.write` result (number of bytes the connection accepted, as
`write` may accept fewer than offered), and the `stream.read` result
(the bytes placed in the 2048-byte buffer). -/
structure NetBehavior where
  connect : Except String Unit
  set_read_timeout : Except String Unit
  write : List Nat → Except String Nat
  read : Except String (List Nat)

/-- Outcomes of the external library calls `String::from_utf8` and
`serde_json::from_str` for the response type `T`. -/
structure Codecs (T : Type) where
  utf8Decode : List Nat → Except String String
  jsonOfStr : String → Except String T

/-- Result of one `send_command` call: a typed response, a typed
`PlugError`, or a process-aborting panic (`crash`). -/
inductive TransportResult (T : Type) where
  | ok : T → TransportResult T
  | err : PlugError → TransportResult T
  | crash : String → TransportResult T
deriving DecidableEq

/-- UTF-8 encoding of one character (the `String::as_bytes` view of
the request text). -/
def utf8EncodeChar (c : Char) : List Nat :=
  let n := c.toNat
  if n < 128 then [n]
  else if n < 2048 then [192 ||| (n >>> 6), 128 ||| (n &&& 63)]
  else if n < 65536 then
    [224 ||| (n >>> 12), 128 ||| ((n >>> 6) &&& 63), 128 ||| (n &&& 63)]
  else
    [240 ||| (n >>> 18), 128 ||| ((n >>> 12) &&& 63),
      128 ||| ((n >>> 6) &&& 63), 128 ||| (n &&& 63)]

/-- UTF-8 bytes of a string, i.e. `s.as_bytes().to_vec()` at
src/lib.rs:82. -/
def strBytes (s : String) : List Nat :=
  (s.data.map utf8EncodeChar).flatten

/-- Embedding of `send_command` (src/lib.rs:74-107).  Step order and
outcome mapping follow the source exactly: a connect failure is
"Connection error"; a failing `set_read_timeout` hits `.unwrap()` and
panics; the write result is matched but its byte count is discarded
(`Ok(_v) => 0`); a read failure is "Read failed"; `decrypt_payload`
runs on the received bytes and its out-of-bounds panic aborts the
call; invalid UTF-8 is "Decoding failed"; a serde_json failure is
"Deserialization failed. Reason: " followed by the parser message. -/
def send_command {T : Type} (c : Codecs T) (net : NetBehavior) (s : String) :
    TransportResult T :=
  match net.connect with
  | .error _ => .err (PlugError.new "Connection error")
  | .ok _ =>
    match net.set_read_timeout with
    | .error e => .crash e
    | .ok _ =>
      match net.write (encrypt_payload (strBytes s)) with
      | .error _ => .err (PlugError.new "Write failed")
      | .ok _ =>
        match net.read with
        | .error _ => .err (PlugError.new "Read failed")
        | .ok buf =>
          match decrypt_payload buf with
          | .outOfBounds => .crash "index out of range"
          | .ok plain =>
            match c.utf8Decode plain with
            | .error _ => .err (PlugError.new "Decoding failed")
            | .ok txt =>
              match c.jsonOfStr txt with
              | .error e =>
                .err (PlugError.new ("Deserialization failed. Reason: " ++ e))
              | .ok r => .ok r

/-- Modelled from the spec: the transport contract of sections 4.2 and
7 — one attempt per step, each failure mapped to its category
("Connection error", "Write failed", "Read failed", "Decoding failed",
"Deserialization failed" with the parser message), a truncated reply
frame being a protocol error rather than a panic, and no panic on any
path. -/
def sendTaxonomy {T : Type} (c : Codecs T) (net : NetBehavior) (s : String) :
    TransportResult T :=
  match net.connect with
  | .error _ => .err (PlugError.new "Connection error")
  | .ok _ =>
    match net.write (encrypt_payload (strBytes s)) with
    | .error _ => .err (PlugError.new "Write failed")
    | .ok _ =>
      match net.read with
      | .error _ => .err (PlugError.new "Read failed")
      | .ok buf =>
        match decrypt_payload buf with
        | .outOfBounds => .err (PlugError.new "Protocol Error: truncated frame")
        | .ok plain =>
          match c.utf8Decode plain with
          | .error _ => .err (PlugError.new "Decoding failed")
          | .ok txt =>
            match c.jsonOfStr txt with
            | .error e =>
              .err (PlugError.new ("Deserialization failed. Reason: " ++ e))
            | .ok r => .ok r

/-- Holds when the bytes a successful read delivers form a well-formed
frame, so that deciphering them cannot go out of bounds. -/
def replyWellFramed (net : NetBehavior) : Bool :=
  match net.read with
  | .error _ => true
  | .ok buf =>
    match decrypt_payload buf with
    | .ok _ => true
    | .outOfBounds => false

/-- UTF-8 bytes of the request document `set_relay_state` builds for
state 0 (src/lib.rs:116-125), the plaintext of the spec's end-to-end
scenario 1. -/
def relayStateCmdBytes : List Nat :=
  [123, 34, 115, 121, 115, 116, 101, 109, 34, 58, 123, 34, 115, 101, 116, 95,
   114, 101, 108, 97, 121, 95, 115, 116, 97, 116, 101, 34, 58, 123, 34, 115,
   116, 97, 116, 101, 34, 58, 48, 125, 125, 125]

/-- Request document built by `get_realtime` and by
`get_realtime_current_voltage` (src/lib.rs:460-465). -/
def emeterGetRealtimeCmd : Json :=
  Json.obj [("emeter", Json.obj [("get_realtime", Json.obj [])])]

/-- Embedding of `get_realtime_current_voltage` (src/lib.rs:460-467):
an associated function taking no device and no connection; it builds
the energy-meter realtime command document, never uses it, and returns
the constant pair `(1 as f32, 1 as f32)`. -/
def get_realtime_current_voltage : Float × Float :=
  let _cmd := emeterGetRealtimeCmd
  ((1 : Float), (1 : Float))

/- ===================================================================
   Concrete step records used to evaluate the transport on specific
   scenarios.
   =================================================================== -/

/-- Trivial external codecs for a unit response type. -/
def unitCodecs : Codecs Unit :=
  ⟨fun _ => Except.ok "null", fun _ => Except.ok ()⟩

/-- Behavior in which every step succeeds and the device answers with
a well-formed frame. -/
def netAllOk : NetBehavior :=
  ⟨Except.ok (), Except.ok (), fun p => Except.ok p.length,
    Except.ok (encrypt_payload (strBytes "1"))⟩

/-- Behavior in which the connection accepts only one byte of each
write yet every step reports success. -/
def netPartialWrite : NetBehavior :=
  ⟨Except.ok (), Except.ok (), fun _ => Except.ok 1,
    Except.ok (encrypt_payload (strBytes "1"))⟩

/-- Behavior in which setting the read deadline fails. -/
def netBadDeadline : NetBehavior :=
  ⟨Except.ok (), Except.error "deadline not supported", fun p => Except.ok p.length,
    Except.ok (encrypt_payload (strBytes "1"))⟩

/-- Behavior in which the device replies with only two bytes, shorter
than the 4-byte length prefix of a frame. -/
def netShortReply : NetBehavior :=
  ⟨Except.ok (), Except.ok (), fun p => Except.ok p.length, Except.ok [0, 0]⟩

/-- True when a transport outcome is a typed result — a response or a
`PlugError` value — and false when the call aborted with a panic. -/
def TransportResult.isTyped {T : Type} : TransportResult T → Bool
  | .ok _ => true
  | .err _ => true
  | .crash _ => false

/- ===================================================================
   Codec lemmas.
   =================================================================== -/

theorem size_from_bytes_cons (a b c d : Nat) :
    size_from_bytes [a, b, c, d] = (a <<< 24) ||| (b <<< 16) ||| (c <<< 8) ||| d := rfl

/-- Reassembling the four big-endian bytes of a `u32` recovers it. -/
theorem size_from_to (m : Nat) (h : m < 2 ^ 32) :
    size_from_bytes (size_to_bytes m) = m := by
  rw [size_to_bytes, size_from_bytes_cons]
  rw [show (256 : Nat) = 2 ^ 8 by norm_num]
  apply Nat.eq_of_testBit_eq
  intro i
  simp only [Nat.testBit_lor, Nat.testBit_shiftLeft, Nat.testBit_mod_two_pow,
    Nat.testBit_shiftRight, ge_iff_le]
  rcases Nat.lt_or_ge i 8 with h1 | h1
  · simp [show ¬ (24 : Nat) ≤ i by omega, show ¬ (16 : Nat) ≤ i by omega,
      show ¬ (8 : Nat) ≤ i by omega, h1]
  rcases Nat.lt_or_ge i 16 with h2 | h2
  · simp [show ¬ (24 : Nat) ≤ i by omega, show ¬ (16 : Nat) ≤ i by omega,
      show (8 : Nat) ≤ i from h1, show i - 8 < 8 by omega, show ¬ i < 8 by omega,
      show 8 + (i - 8) = i by omega]
  rcases Nat.lt_or_ge i 24 with h3 | h3
  · simp [show ¬ (24 : Nat) ≤ i by omega, show (16 : Nat) ≤ i from h2,
      show i - 16 < 8 by omega, show ¬ i < 8 by omega, show ¬ i - 8 < 8 by omega,
      show 16 + (i - 16) = i by omega]
  rcases Nat.lt_or_ge i 32 with h4 | h4
  · simp [show (24 : Nat) ≤ i from h3, show i - 24 < 8 by omega, show ¬ i < 8 by omega,
      show ¬ i - 8 < 8 by omega, show ¬ i - 16 < 8 by omega,
      show 24 + (i - 24) = i by omega]
  · have hm : m.testBit i = false :=
      Nat.testBit_lt_two_pow (lt_of_lt_of_le h (Nat.pow_le_pow_right (by norm_num) h4))
    simp [hm, show ¬ i < 8 by omega, show ¬ i - 8 < 8 by omega,
      show ¬ i - 16 < 8 by omega, show ¬ i - 24 < 8 by omega]

/-- The cipher keeps the byte count. -/
theorem encryptBytes_length (key : Nat) (l : List Nat) :
    (encryptBytes key l).length = l.length := by
  induction l generalizing key with
  | nil => rfl
  | cons b bs ih => simp [encryptBytes, ih]

/-- Deciphering with the same seed key inverts the cipher: the
ciphertext byte read feeds the next key on both sides. -/
theorem decryptBytes_encryptBytes (key : Nat) (l : List Nat) :
    decryptBytes key (encryptBytes key l) = l := by
  induction l generalizing key with
  | nil => rfl
  | cons b bs ih =>
    simp [encryptBytes, decryptBytes, ih, Nat.xor_assoc, Nat.xor_self, Nat.xor_zero]

theorem encrypt_payload_take4 (x : List Nat) :
    (encrypt_payload x).take 4 = size_to_bytes (x.length % 2 ^ 32) := rfl

theorem encrypt_payload_drop4 (x : List Nat) :
    (encrypt_payload x).drop 4 = encryptBytes 171 x := rfl

theorem encrypt_payload_length (x : List Nat) :
    (encrypt_payload x).length = x.length + 4 := by
  simp only [encrypt_payload, List.length_append, encryptBytes_length, size_to_bytes,
    List.length_cons, List.length_nil]
  omega

/-- The length prefix a frame carries is the payload length modulo
2 to the 32nd, whatever the payload length is. -/
theorem frame_declared_size (x : List Nat) :
    size_from_bytes ((encrypt_payload x).take 4) = x.length % 2 ^ 32 := by
  rw [encrypt_payload_take4, size_from_to _ (Nat.mod_lt _ (Nat.two_pow_pos 32))]

theorem bigEndianValue_cons (a b c d : Nat) :
    bigEndianValue [a, b, c, d] = a * 2 ^ 24 + b * 2 ^ 16 + c * 2 ^ 8 + d := rfl

theorem bigEndianValue_size_to_bytes (m : Nat) (h : m < 2 ^ 32) :
    bigEndianValue (size_to_bytes m) = m := by
  rw [size_to_bytes, bigEndianValue_cons]
  simp only [Nat.shiftRight_eq_div_pow]
  omega

/- ===================================================================
   Claim theorems.
   =================================================================== -/

/-- C1 counterexample: at the 2 to the 32nd byte sequence of zeros the
cast `data.len() as u32` wraps to 0, so the frame declares length 0
and decoding it returns the empty vector, not the original sequence. -/
theorem roundtrip_fails_at_u32_overflow :
    decrypt_payload (encrypt_payload (List.replicate (2 ^ 32) 0)) ≠
      DecodeResult.ok (List.replicate (2 ^ 32) 0) := by
  have hm : (List.replicate (2 ^ 32) (0 : Nat)).length % 2 ^ 32 = 0 := by
    rw [List.length_replicate]
    exact Nat.mod_self _
  have hpre :
      size_from_bytes ((encrypt_payload (List.replicate (2 ^ 32) (0 : Nat))).take 4) = 0 := by
    rw [frame_declared_size, hm]
  have hlen : (encrypt_payload (List.replicate (2 ^ 32) (0 : Nat))).length = 2 ^ 32 + 4 := by
    rw [encrypt_payload_length, List.length_replicate]
  have hzero : decrypt_payload (encrypt_payload (List.replicate (2 ^ 32) 0)) =
      DecodeResult.ok [] := by
    unfold decrypt_payload
    rw [hpre, hlen]
    rw [if_neg (by norm_num), if_neg (by norm_num), List.take_zero]
    rfl
  rw [hzero]
  intro hcon
  have h2 : ([] : List Nat) = List.replicate (2 ^ 32) 0 := by injection hcon
  have h3 := congrArg List.length h2
  rw [List.length_nil, List.length_replicate] at h3
  exact Nat.pos_iff_ne_zero.mp (Nat.two_pow_pos 32) h3.symm

/-- C1 (amended): for every byte sequence of length below 2 to the
32nd — in particular the empty sequence and sequences containing byte
value 171 — decoding the encoding yields the sequence back. -/
theorem codec_roundtrip (x : List Nat) (h : x.length < 2 ^ 32) :
    decrypt_payload (encrypt_payload x) = DecodeResult.ok x := by
  have hpre : size_from_bytes ((encrypt_payload x).take 4) = x.length := by
    rw [frame_declared_size, Nat.mod_eq_of_lt h]
  unfold decrypt_payload
  rw [hpre, encrypt_payload_drop4, encrypt_payload_length]
  rw [if_neg (by omega), if_neg (by omega)]
  have htake : (encryptBytes 171 x).take x.length = encryptBytes 171 x := by
    rw [← encryptBytes_length 171 x]
    exact List.take_length _
  rw [htake, decryptBytes_encryptBytes]

/-- Witness for the round-trip on a sequence containing the seed byte
171. -/
theorem codec_roundtrip_witness :
    decrypt_payload (encrypt_payload [171, 0, 255]) = DecodeResult.ok [171, 0, 255] :=
  codec_roundtrip [171, 0, 255] (by decide)

/-- C2: on the 4-byte buffer declaring a 5-byte payload — shorter than
the 4 + 5 bytes its prefix promises — `decrypt_payload` hits the
out-of-bounds panic when it indexes byte 4, instead of returning a
truncated-frame protocol error. -/
theorem decrypt_truncated_frame_out_of_bounds :
    decrypt_payload [0, 0, 0, 5] = DecodeResult.outOfBounds := by decide

/-- C3 counterexample: at length exactly 2 to the 32nd the emitted
prefix reads back 0 in big-endian, not the plaintext length. -/
theorem frame_prefix_wrong_at_u32_overflow :
    bigEndianValue ((encrypt_payload (List.replicate (2 ^ 32) 1)).take 4) ≠
      (List.replicate (2 ^ 32) 1).length := by
  rw [encrypt_payload_take4, List.length_replicate, Nat.mod_self]
  rw [show bigEndianValue (size_to_bytes 0) = 0 from by decide]
  decide

/-- C3 (amended): every encoded frame is 4 bytes longer than its
plaintext, and when the plaintext length fits in 32 bits the first 4
bytes read back as exactly that length in big-endian. -/
theorem encode_framing (x : List Nat) :
    (encrypt_payload x).length = x.length + 4 ∧
      (x.length < 2 ^ 32 → bigEndianValue ((encrypt_payload x).take 4) = x.length) := by
  refine ⟨encrypt_payload_length x, fun h => ?_⟩
  rw [encrypt_payload_take4, Nat.mod_eq_of_lt h, bigEndianValue_size_to_bytes _ h]

/-- Witness for the framing postcondition on a one-byte plaintext. -/
theorem encode_framing_witness :
    (encrypt_payload [7]).length = [7].length + 4 ∧
      bigEndianValue ((encrypt_payload [7]).take 4) = [7].length :=
  ⟨(encode_framing [7]).1, (encode_framing [7]).2 (by decide)⟩

/-- C8 counterexample: the UTF-8 byte length of the set-relay-state
plaintext is not 41 as the claim states. -/
theorem relay_cmd_length_not_41 : relayStateCmdBytes.length ≠ 41 := by decide

/-- C8 (amended): the set-relay-state plaintext is 42 bytes long, its
first ciphered byte (the byte right after the prefix) equals
0x7B XOR 171, and decoding the produced frame reproduces the
plaintext exactly. -/
theorem relay_cmd_known_answer :
    relayStateCmdBytes.length = 42 ∧
      (encrypt_payload relayStateCmdBytes).getD 4 0 = 0x7B ^^^ 171 ∧
      decrypt_payload (encrypt_payload relayStateCmdBytes) =
        DecodeResult.ok relayStateCmdBytes := by
  decide

/-- C10: the length prefix a frame carries equals the plaintext length
reduced modulo 2 to the 32nd (the `as u32` cast), and it equals the
plaintext length itself exactly when that length fits in 32 bits. -/
theorem length_prefix_mod_u32 (x : List Nat) :
    size_from_bytes ((encrypt_payload x).take 4) = x.length % 2 ^ 32 ∧
      (size_from_bytes ((encrypt_payload x).take 4) = x.length ↔ x.length < 2 ^ 32) := by
  refine ⟨frame_declared_size x, ?_, ?_⟩
  · intro he
    rw [frame_declared_size] at he
    have := Nat.mod_lt x.length (Nat.two_pow_pos 32)
    omega
  · intro h
    rw [frame_declared_size, Nat.mod_eq_of_lt h]

/-- Witness instantiating the length-prefix characterization. -/
theorem length_prefix_mod_u32_witness :
    size_from_bytes ((encrypt_payload [5, 6]).take 4) = [5, 6].length % 2 ^ 32 ∧
      (size_from_bytes ((encrypt_payload [5, 6]).take 4) = [5, 6].length ↔
        [5, 6].length < 2 ^ 32) :=
  length_prefix_mod_u32 [5, 6]

/-- C4 counterexample: the response document whose energy-meter
realtime block is present but carries none of its leaves is rejected,
because `err_code` is a required (non-`Option`) `i64` field of the
schema. -/
theorem emeter_missing_err_code_rejected :
    PlugResponse.fromJson
        (Json.obj [("emeter", Json.obj [("get_realtime", Json.obj [])])]) =
      Except.error "missing field err_code" := rfl

/-- C4 (amended): documents whose `Option`-typed leaves are absent or
null deserialize with those leaves unset — in particular a document
omitting the emeter block entirely, or carrying a null emeter block,
deserializes successfully — but the required `i64` leaf `err_code`
must be present in any realtime block that appears. -/
theorem optional_fields_deserialize :
    PlugResponse.fromJson (Json.obj []) = Except.ok ⟨none, none⟩ ∧
      PlugResponse.fromJson (Json.obj [("emeter", Json.null)]) = Except.ok ⟨none, none⟩ ∧
      PlugResponse.fromJson
          (Json.obj [("emeter", Json.obj [("get_realtime",
            Json.obj [("err_code", Json.num 0)])])]) =
        Except.ok ⟨none, some ⟨some ⟨none, none, none, none, none, none, none, none, 0⟩,
          none, none⟩⟩ ∧
      PlugResponse.fromJson
          (Json.obj [("emeter", Json.obj [("get_realtime",
            Json.obj [("current", Json.null), ("voltage", Json.null),
              ("power", Json.null), ("total", Json.null),
              ("err_code", Json.num 0)])])]) =
        Except.ok ⟨none, some ⟨some ⟨none, none, none, none, none, none, none, none, 0⟩,
          none, none⟩⟩ :=
  ⟨rfl, rfl, rfl, rfl⟩

/-- C5 counterexample: when the device replies with a 2-byte buffer,
every transport step up to and including the read succeeds, yet the
call ends in a panic inside the cipher reversal — neither an `Ok` nor
the typed error of any failing step. -/
theorem send_command_short_reply_crash :
    (send_command unitCodecs netShortReply "1").isTyped = false := rfl

/-- C5 (amended): provided setting the read deadline succeeds and the
reply frame is well formed (so the cipher reversal stays in bounds),
`send_command` implements the spec's one-attempt taxonomy mapping:
`Ok` exactly when every step succeeds, and otherwise the first failing
step's category — connection, write, read, decoding (invalid UTF-8),
or deserialization carrying the parser's message. -/
theorem send_command_taxonomy {T : Type} (c : Codecs T) (net : NetBehavior) (s : String)
    (hto : net.set_read_timeout = Except.ok ())
    (hwf : replyWellFramed net = true) :
    send_command c net s = sendTaxonomy c net s := by
  obtain ⟨cn, ct, cw, cr⟩ := net
  cases cn with
  | error e => rfl
  | ok u =>
    cases ct with
    | error e => exact Except.noConfusion hto
    | ok v =>
      cases hw : cw (encrypt_payload (strBytes s)) with
      | error e => simp only [send_command, sendTaxonomy, hw]
      | ok n =>
        cases cr with
        | error e => simp only [send_command, sendTaxonomy, hw]
        | ok buf =>
          cases hd : decrypt_payload buf with
          | ok plain => simp only [send_command, sendTaxonomy, hw, hd]
          | outOfBounds =>
            exfalso
            simp only [replyWellFramed, hd] at hwf
            exact Bool.noConfusion hwf

/-- Witness running the taxonomy equivalence on an all-successful
exchange. -/
theorem send_command_taxonomy_witness :
    send_command unitCodecs netAllOk "1" = sendTaxonomy unitCodecs netAllOk "1" :=
  send_command_taxonomy unitCodecs netAllOk "1" rfl (by decide)

/-- C6: with a connection that accepts only one byte of the multi-byte
frame, the transport still reports success: the write step's byte
count is discarded and no loop resends the rest, contradicting the
complete-write guarantee. -/
theorem partial_write_ignored :
    send_command unitCodecs netPartialWrite "1" = TransportResult.ok () ∧
      1 < (encrypt_payload (strBytes "1")).length := by
  exact ⟨rfl, by decide⟩

/-- C7: when setting the read deadline fails, `send_command` panics
through the `.unwrap()` at src/lib.rs:80 instead of surfacing an error
value to the caller. -/
theorem set_timeout_failure_crashes :
    send_command unitCodecs netBadDeadline "1" =
      TransportResult.crash "deadline not supported" := rfl

/-- C9: the associated function `get_realtime_current_voltage` takes
neither a device nor a connection and returns the constant pair
(1, 1) on every invocation; the realtime command document it builds is
discarded. -/
theorem get_realtime_current_voltage_constant :
    get_realtime_current_voltage = ((1 : Float), (1 : Float)) := rfl
